import Mathlib

/-!
Shallow embedding of src/elevenlabs_service.py, a FastAPI relay between the
ElevenLabs voice vendor, Slack and a Supabase session store.  Handlers are
modelled as pure functions from an explicit world (the request payload, the
session-store contents and the responses of the external collaborators) to a
result paired with the side effects the handler performed on the store and on
Slack.  External HTTP collaborators are modelled through their documented
request/response shapes; Python truthiness on strings (empty string is falsy)
is modelled explicitly.
-/

namespace ElevenLabsService

/-- One row of the standup_responses table in the session store.
Fields mirror the JSON the service reads and writes: slack_user_id, date,
status and the created_at timestamp used for ordering. -/
structure SessionRow where
  slack_user_id : String
  date : String
  status : String
  created_at : Nat
deriving Repr, DecidableEq

/-- Python truthiness of an optional string: None and the empty string are
falsy, every other string is truthy. -/
def strTruthy : Option String → Bool
  | none => false
  | some s => s ≠ ""

/-- The Python expression a or b on two optional strings: the first operand
when it is truthy, otherwise the second. -/
def pyStrOr (a b : Option String) : Option String :=
  match a with
  | none => b
  | some s => if s = "" then b else some s

/-- The webhook payload envelope: the object stored under the data key of an
ElevenLabs post_call_transcription event.  Only conversation_id is read by
the handler; user_id is carried along to state claims about it. -/
structure PayloadData where
  conversation_id : Option String := none
  user_id : Option String := none
deriving Repr, DecidableEq

/-- The JSON body of a POST /api/webhooks/elevenlabs request: an optional
data envelope plus the same two fields at top level. -/
structure WebhookPayload where
  data : Option PayloadData := none
  conversation_id : Option String := none
  user_id : Option String := none
deriving Repr, DecidableEq

/-- Lines 377-378 of the source: data = payload.get("data", payload) followed
by conversation_id = data.get("conversation_id") or payload.get("conversation_id").
When no data envelope is present the envelope lookup falls back to the top
level, and the Python or chains on truthiness. -/
def extractConversationId (p : WebhookPayload) : Option String :=
  let d := match p.data with
    | some env => env.conversation_id
    | none => p.conversation_id
  pyStrOr d p.conversation_id

/-- One entry of the vendor transcript list; the source reads both fields
with .get and defaults (role defaults to "unknown", message to ""). -/
structure TranscriptEntry where
  role : Option String := none
  message : Option String := none
deriving Repr, DecidableEq

/-- The f-string of line 428 of the source applied to one entry, defaults
included. -/
def transcriptLine (e : TranscriptEntry) : String :=
  (e.role.getD "unknown") ++ ": " ++ (e.message.getD "")

/-- Lines 424-430 of the source: build the lines list by appending in vendor
order, then join with newlines. -/
def flattenTranscript (entries : List TranscriptEntry) : String :=
  let lines := entries.foldl (fun ls e => ls ++ [transcriptLine e]) []
  String.intercalate "\n" lines

/-- The row a stable sort by descending created_at followed by limit 1 would
return: the first row of the list attaining the greatest created_at, none on
the empty list.  On ties the earlier row wins, as under stable sorting. -/
def mostRecentRow : List SessionRow → Option SessionRow
  | [] => none
  | r :: rest =>
    match mostRecentRow rest with
    | none => some r
    | some b => if b.created_at ≤ r.created_at then some r else some b

/-- The session-store response to the handler query of lines 386-395:
GET standup_responses filtered by date = today and status = pending, ordered
by created_at descending, limited to one row.  The PostgREST collaborator
contract is modelled as filter, then the head of the descending created_at
order (at most one row, per limit 1). -/
def pendingQuery (store : List SessionRow) (today : String) : List SessionRow :=
  match mostRecentRow (store.filter fun r => r.date == today && r.status == "pending") with
  | none => []
  | some r => [r]

/-- Responses of the Slack collaborator as seen by send_slack_dm: the
channel id found in the conversations.open response (none when the response
carries no channel), and whether the chat.postMessage delivery succeeded. -/
structure SlackEnv where
  openDmChannelId : Option String := none
  postMessageDelivered : Bool := true
deriving Repr, DecidableEq

/-- What the DM helper did: gave up for lack of a channel, or posted to a
channel with the given delivery outcome.  Both are ordinary return values:
the helper has no error outcome. -/
inductive DmOutcome where
  | noChannel
  | posted (channel : String) (delivered : Bool)
deriving Repr, DecidableEq

/-- Lines 66-85 of the source: open a DM channel and post the text.  A
response without a channel id is logged and swallowed (the function just
returns), and the chat.postMessage response is never inspected, so the
helper is total: it never produces an error for its caller. -/
def send_slack_dm (env : SlackEnv) (user_id text : String) : DmOutcome :=
  match env.openDmChannelId with
  | none => DmOutcome.noChannel
  | some ch =>
    let _ := user_id
    let _ := text
    DmOutcome.posted ch env.postMessageDelivered

/-- The result the webhook handler hands back to FastAPI: either an
HTTPException with a status code and detail, or the acknowledgment JSON
with status ok and the conversation id. -/
inductive WebhookResult where
  | httpError (status : Nat) (detail : String)
  | ok (conversation_id : String)
deriving Repr, DecidableEq

/-- The detail string of the 400 raised at line 381 of the source. -/
def missingConvMsg : String := "Missing conversation_id in webhook payload"

/-- The detail string of the 404 raised at line 398 of the source. -/
def noSessionMsg : String := "No matching standup session found for today"

/-- The detail prefix of the upstream error raised at lines 415-418 of the
source (the vendor response text is not modelled). -/
def fetchFailMsg : String := "Failed to fetch conversation"

/-- The Slack DM text of lines 446-449 of the source. -/
def standupRecordedMsg : String :=
  "Your standup has been recorded! Your team lead will see the summary shortly."

/-- Side effects the webhook handler performed: the (user, transcript) pair
handed to store_transcript, the (user, date) pair whose row was PATCHed to
completed, and the outcome of the Slack DM when one was attempted. -/
structure WebhookEffects where
  storedTranscript : Option (String × String) := none
  markedCompleted : Option (String × String) := none
  slackDm : Option DmOutcome := none
deriving Repr, DecidableEq

/-- The world a single webhook request runs in: the request payload, the
session-store contents, the date, the vendor conversation-detail response
(status code and transcript) and the Slack collaborator responses. -/
structure WebhookWorld where
  payload : WebhookPayload
  store : List SessionRow
  today : String
  vendorStatus : Nat
  vendorTranscript : List TranscriptEntry
  slack : SlackEnv
deriving Repr, DecidableEq

/-- Lines 364-451 of the source, the POST /api/webhooks/elevenlabs handler:
extract the conversation id (400 when falsy), resolve the user as the first
row of the pending-today query (404 when empty), fetch the conversation from
the vendor (propagate its status on non-200), flatten the transcript, hand
it to store_transcript, PATCH the row to completed and send the Slack DM,
then acknowledge.  The handler never reads a user id from the payload. -/
def elevenlabs_webhook (w : WebhookWorld) : WebhookResult × WebhookEffects :=
  match extractConversationId w.payload with
  | none => (WebhookResult.httpError 400 missingConvMsg, {})
  | some conversation_id =>
    if conversation_id = "" then
      (WebhookResult.httpError 400 missingConvMsg, {})
    else
      match pendingQuery w.store w.today with
      | [] => (WebhookResult.httpError 404 noSessionMsg, {})
      | row :: _ =>
        let user_id := row.slack_user_id
        if w.vendorStatus ≠ 200 then
          (WebhookResult.httpError w.vendorStatus fetchFailMsg, {})
        else
          let full_transcript := flattenTranscript w.vendorTranscript
          (WebhookResult.ok conversation_id,
            { storedTranscript := some (user_id, full_transcript),
              markedCompleted := some (user_id, w.today),
              slackDm := some (send_slack_dm w.slack user_id standupRecordedMsg) })

/-- The profile object of a Slack users.info response; both fields are read
with .get and may be missing. -/
structure SlackProfile where
  display_name : Option String := none
  real_name : Option String := none
deriving Repr, DecidableEq

/-- The world a GET /call request runs in: the two query parameters (absent
parameters default to the empty string in the route signature), the
configured Supabase URL and Slack token (empty when unset), the Slack
users.info response (none when the request raised), the date, and the
vendor signed-url response. -/
structure CallPageWorld where
  user_id : String := ""
  user_name : String := ""
  supabase_url : String := ""
  slack_bot_token : String := ""
  slackUserProfile : Option SlackProfile := none
  today : String := ""
  vendorStatus : Nat := 200
  vendorSignedUrl : Option String := none
deriving Repr, DecidableEq

/-- The row body POSTed by the call page upsert of lines 100-104 of the
source. -/
structure SessionUpsert where
  slack_user_id : String
  date : String
  status : String
deriving Repr, DecidableEq

/-- The call page response: an error page with a status code, or the 200
call-widget page carrying the signed url, the resolved user name and the
context text. -/
inductive CallPageResult where
  | html (status : Nat) (body : String)
  | page (signed_url : String) (user_name : String) (context : String)
deriving Repr, DecidableEq

/-- Side effects of a call-page request on the session store: the upserted
row, when one was POSTed. -/
structure CallPageEffects where
  upserted : Option SessionUpsert := none
deriving Repr, DecidableEq

/-- Lines 36-47 of the source: the placeholder context provider, a pure
function of the user id. -/
def get_context_for_member (user_id : String) : String :=
  "Member " ++ user_id ++ " — recent context:\n" ++
  "• Yesterday: Worked on API integration\n" ++
  "• Blocker: Waiting on design review\n" ++
  "• Custom question from lead: How is the migration going?"

/-- Lines 106-125 of the source: resolve the display name when the query
parameter is empty and a Slack token is configured, chaining display_name,
real_name and the user id on truthiness; on a users.info exception, and
whenever the name is still empty, fall back to the user id. -/
def resolveUserName (w : CallPageWorld) : String :=
  let user_name :=
    if w.user_name = "" ∧ w.slack_bot_token ≠ "" then
      match w.slackUserProfile with
      | some profile =>
        (pyStrOr (pyStrOr profile.display_name profile.real_name)
          (some w.user_id)).getD ""
      | none => w.user_id
    else w.user_name
  if user_name = "" then w.user_id else user_name

/-- Lines 91-279 of the source, the GET /call handler: 400 on an empty
user id before any store call; upsert a called row for today when Supabase
is configured; resolve the name and the context; fetch the signed url from
the vendor (502 on non-200 or on a missing or empty signed url); otherwise
return the widget page. -/
def call_page (w : CallPageWorld) : CallPageResult × CallPageEffects :=
  if w.user_id = "" then
    (CallPageResult.html 400 "<h2>Missing user_id</h2>", {})
  else
    let eff : CallPageEffects :=
      if w.supabase_url ≠ "" then
        { upserted := some
            { slack_user_id := w.user_id, date := w.today, status := "called" } }
      else {}
    let user_name := resolveUserName w
    let context := get_context_for_member w.user_id
    if w.vendorStatus ≠ 200 then
      (CallPageResult.html 502 "<h2>ElevenLabs API error</h2>", eff)
    else
      let signed_url := w.vendorSignedUrl.getD ""
      if signed_url = "" then
        (CallPageResult.html 502 "<h2>Could not get signed URL</h2>", eff)
      else
        (CallPageResult.page signed_url user_name context, eff)

/-- The result of the ad-hoc notify endpoint. -/
inductive SlackNotifyResult where
  | ok
  | misconfiguration (status : Nat)
deriving Repr, DecidableEq

/-- Modelled from the spec: the POST /api/slack-notify endpoint is absent
from src/elevenlabs_service.py (this variant does not define the route), so
it is modelled from the spec sections 4.4, 6 and 8: the endpoint accepts a
body message; when no incoming-webhook URL is configured it returns a
misconfiguration error and makes no network call; otherwise it relays the
message verbatim to the webhook transport and returns status ok.  The
second component is the text POSTed to the webhook transport, none when no
network call is made. -/
def slack_notify (webhook_url message : String) : SlackNotifyResult × Option String :=
  if webhook_url = "" then (SlackNotifyResult.misconfiguration 500, none)
  else (SlackNotifyResult.ok, some message)

/-- A concrete pending session row used to instantiate theorems. -/
def rowPending : SessionRow :=
  { slack_user_id := "U1", date := "2026-10-12", status := "pending", created_at := 5 }

/-- A concrete happy-path webhook world: conversation id in the data
envelope, no user id anywhere, one pending row for today, vendor fetch
succeeding with a two-entry transcript. -/
def wOk : WebhookWorld :=
  { payload := { data := some { conversation_id := some "conv1" } },
    store := [rowPending],
    today := "2026-10-12",
    vendorStatus := 200,
    vendorTranscript :=
      [{ role := some "agent", message := some "Hi" },
       { role := some "user", message := some "Hello" }],
    slack := { openDmChannelId := some "D1" } }

/-- A concrete webhook world whose payload carries a user id directly, both
in the envelope and at top level, while the only pending row for today
belongs to a different user. -/
def wDirect : WebhookWorld :=
  { payload := { data := some { conversation_id := some "conv4", user_id := some "U_direct" },
                 user_id := some "U_direct" },
    store := [{ slack_user_id := "U_pending", date := "2026-10-12",
                status := "pending", created_at := 1 }],
    today := "2026-10-12",
    vendorStatus := 200,
    vendorTranscript := [],
    slack := {} }

/-- A concrete webhook world whose payload has the conversation_id key
present at top level but bound to the empty string. -/
def wEmptyCid : WebhookWorld :=
  { payload := { conversation_id := some "" },
    store := [rowPending],
    today := "2026-10-12",
    vendorStatus := 200,
    vendorTranscript := [],
    slack := {} }

end ElevenLabsService

namespace ElevenLabsService

/-! Helper lemmas shared by the claim theorems. -/

/-- mostRecentRow returns none exactly on the empty list. -/
theorem mostRecentRow_nil_iff : ∀ l : List SessionRow, mostRecentRow l = none ↔ l = []
  | [] => by simp [mostRecentRow]
  | r :: rest => by
    cases h : mostRecentRow rest with
    | none => simp [mostRecentRow, h]
    | some b => simp only [mostRecentRow, h]; split <;> simp

/-- A row returned by mostRecentRow is a member of the list and attains the
greatest created_at among its rows. -/
theorem mostRecentRow_spec : ∀ (l : List SessionRow) (r : SessionRow),
    mostRecentRow l = some r → r ∈ l ∧ ∀ s ∈ l, s.created_at ≤ r.created_at
  | [], r => by simp [mostRecentRow]
  | a :: rest, r => by
    intro h
    simp only [mostRecentRow] at h
    cases hm : mostRecentRow rest with
    | none =>
      rw [hm] at h
      cases h
      have hrest : rest = [] := (mostRecentRow_nil_iff rest).1 hm
      subst hrest
      simp
    | some b =>
      rw [hm] at h
      have h' : (if b.created_at ≤ a.created_at then some a else some b) = some r := h
      have hb := mostRecentRow_spec rest b hm
      by_cases hle : b.created_at ≤ a.created_at
      · rw [if_pos hle] at h'
        cases h'
        refine ⟨List.mem_cons_self _ _, ?_⟩
        intro s hs
        rcases List.mem_cons.1 hs with h1 | h2
        · subst h1; exact Nat.le_refl _
        · exact Nat.le_trans (hb.2 s h2) hle
      · rw [if_neg hle] at h'
        cases h'
        refine ⟨List.mem_cons_of_mem _ hb.1, ?_⟩
        intro s hs
        rcases List.mem_cons.1 hs with h1 | h2
        · subst h1; omega
        · exact hb.2 s h2

/-- The pending-today query is empty exactly when no row matches the
filter. -/
theorem pendingQuery_nil_iff (store : List SessionRow) (today : String) :
    pendingQuery store today = []
      ↔ (store.filter fun r => r.date == today && r.status == "pending") = [] := by
  unfold pendingQuery
  cases h : mostRecentRow (store.filter fun r => r.date == today && r.status == "pending") with
  | none => simp [(mostRecentRow_nil_iff _).1 h]
  | some r =>
    simp only []
    constructor
    · intro hfalse; cases hfalse
    · intro hfil
      rw [hfil] at h
      simp [mostRecentRow] at h

/-- A nonempty pending-today query is a singleton whose row matches the
filter and attains the greatest created_at among the matching rows. -/
theorem pendingQuery_cons (store : List SessionRow) (today : String)
    (r : SessionRow) (rest : List SessionRow)
    (h : pendingQuery store today = r :: rest) :
    rest = []
    ∧ r ∈ store.filter (fun s => s.date == today && s.status == "pending")
    ∧ ∀ s ∈ store.filter (fun s => s.date == today && s.status == "pending"),
        s.created_at ≤ r.created_at := by
  unfold pendingQuery at h
  cases hm : mostRecentRow (store.filter fun s => s.date == today && s.status == "pending") with
  | none => rw [hm] at h; cases h
  | some b =>
    rw [hm] at h
    cases h
    have hb := mostRecentRow_spec _ _ hm
    exact ⟨rfl, hb.1, hb.2⟩

/-- A singleton filter result makes the pending-today query that same
singleton. -/
theorem pendingQuery_singleton (store : List SessionRow) (today : String) (r : SessionRow)
    (h : (store.filter fun s => s.date == today && s.status == "pending") = [r]) :
    pendingQuery store today = [r] := by
  unfold pendingQuery
  rw [h]
  simp [mostRecentRow]

/-- With a truthy conversation id and an empty pending filter, the webhook
handler returns the 404. -/
theorem webhook_404_aux (w : WebhookWorld) (c : String)
    (hcid : extractConversationId w.payload = some c) (hc : c ≠ "")
    (hfil : (w.store.filter fun r => r.date == w.today && r.status == "pending") = []) :
    elevenlabs_webhook w = (WebhookResult.httpError 404 noSessionMsg, {}) := by
  have hq : pendingQuery w.store w.today = [] := (pendingQuery_nil_iff _ _).2 hfil
  simp [elevenlabs_webhook, hcid, hc, hq]

/-- Folding list append of singletons from any accumulator is the
accumulator followed by the mapped list. -/
theorem foldl_append_map {α β : Type} (f : α → β) :
    ∀ (l : List α) (acc : List β),
      l.foldl (fun ls e => ls ++ [f e]) acc = acc ++ l.map f
  | [], acc => by simp
  | a :: l, acc => by
    simp only [List.foldl, List.map]
    rw [foldl_append_map f l (acc ++ [f a])]
    simp

/-- The extracted conversation id is falsy exactly when the top-level field
is falsy and any envelope field is falsy too. -/
theorem extract_falsy_iff (p : WebhookPayload) :
    strTruthy (extractConversationId p) = false
      ↔ (strTruthy p.conversation_id = false
          ∧ ∀ env, p.data = some env → strTruthy env.conversation_id = false) := by
  cases hd : p.data with
  | none =>
    cases hc : p.conversation_id with
    | none => simp [extractConversationId, hd, hc, pyStrOr, strTruthy]
    | some s =>
      by_cases hs : s = "" <;>
        simp [extractConversationId, hd, hc, pyStrOr, strTruthy, hs]
  | some env =>
    cases he : env.conversation_id with
    | none =>
      cases hc : p.conversation_id with
      | none => simp [extractConversationId, hd, hc, he, pyStrOr, strTruthy]
      | some s =>
        by_cases hs : s = "" <;>
          simp [extractConversationId, hd, hc, he, pyStrOr, strTruthy, hs]
    | some t =>
      by_cases ht : t = ""
      · cases hc : p.conversation_id with
        | none => simp [extractConversationId, hd, hc, he, pyStrOr, strTruthy, ht]
        | some s =>
          by_cases hs : s = "" <;>
            simp [extractConversationId, hd, hc, he, pyStrOr, strTruthy, hs, ht]
      · simp [extractConversationId, hd, he, pyStrOr, strTruthy, ht]

/-- The webhook handler returns the missing-conversation-id 400 exactly when
the extracted conversation id is falsy. -/
theorem webhook_400_iff_aux (w : WebhookWorld) :
    (elevenlabs_webhook w).1 = WebhookResult.httpError 400 missingConvMsg
      ↔ strTruthy (extractConversationId w.payload) = false := by
  cases hcid : extractConversationId w.payload with
  | none => simp [elevenlabs_webhook, hcid, strTruthy]
  | some c =>
    by_cases hc : c = ""
    · simp [elevenlabs_webhook, hcid, hc, strTruthy]
    · have hr : strTruthy (some c) = false ↔ False := by simp [strTruthy, hc]
      rw [hr, iff_false]
      intro habs
      rcases hq : pendingQuery w.store w.today with _ | ⟨r, rest⟩
      · simp [elevenlabs_webhook, hcid, hc, hq] at habs
      · by_cases hv : w.vendorStatus = 200
        · simp [elevenlabs_webhook, hcid, hc, hq, hv] at habs
        · simp [elevenlabs_webhook, hcid, hc, hq, hv, fetchFailMsg, missingConvMsg] at habs

end ElevenLabsService

namespace ElevenLabsService

/-- Claim C2: transcript flattening maps the ordered vendor entries to the
newline-joined list of role-colon-message lines, preserving order, and on
the two-entry agent/user input yields exactly "agent: Hi\nuser: Hello". -/
theorem flattenTranscript_order_exact :
    (∀ entries, flattenTranscript entries
        = String.intercalate "\n" (entries.map transcriptLine))
    ∧ flattenTranscript
        [{ role := some "agent", message := some "Hi" },
         { role := some "user", message := some "Hello" }]
      = "agent: Hi\nuser: Hello" := by
  constructor
  · intro entries
    unfold flattenTranscript
    rw [foldl_append_map]
    simp
  · decide

/-- Claim C6 counterexample: a payload whose conversation_id key is present
at top level but bound to the empty string is rejected with the 400, so
presence alone does not make extraction succeed. -/
theorem webhook_present_empty_conv_id_400 :
    wEmptyCid.payload.conversation_id = some ""
    ∧ (elevenlabs_webhook wEmptyCid).1 = WebhookResult.httpError 400 missingConvMsg :=
  ⟨rfl, by decide⟩

/-- Claim C6 (amended): the handler fails with the missing-conversation-id
400 exactly when no non-empty conversation id is present, in the data
envelope or at top level; a conversation id present with a non-empty value
in either place makes extraction succeed, while an empty-string value is
treated as absent. -/
theorem webhook_400_iff_no_truthy_conv_id (w : WebhookWorld) :
    (elevenlabs_webhook w).1 = WebhookResult.httpError 400 missingConvMsg
      ↔ (strTruthy w.payload.conversation_id = false
          ∧ ∀ env, w.payload.data = some env → strTruthy env.conversation_id = false) :=
  (webhook_400_iff_aux w).trans (extract_falsy_iff w.payload)

/-- Claim C7: with a conversation id but no user id in the event, and zero
pending rows for today in the store, the webhook handler fails with the
not-found 404. -/
theorem webhook_zero_pending_404 (w : WebhookWorld) (c : String)
    (hcid : extractConversationId w.payload = some c) (hc : c ≠ "")
    (huser : w.payload.user_id = none)
    (henv : ∀ env, w.payload.data = some env → env.user_id = none)
    (hfil : (w.store.filter fun r => r.date == w.today && r.status == "pending") = []) :
    (elevenlabs_webhook w).1 = WebhookResult.httpError 404 noSessionMsg := by
  rw [webhook_404_aux w c hcid hc hfil]

/-- Witness for C7: the happy-path world with its store emptied yields the
404. -/
theorem webhook_zero_pending_404_witness :
    (elevenlabs_webhook { wOk with store := [] }).1
      = WebhookResult.httpError 404 noSessionMsg :=
  webhook_zero_pending_404 { wOk with store := [] } "conv1" (by decide) (by decide)
    rfl (by intro env h; cases h; rfl) (by decide)

/-- Claim C8: a call-page request with an empty user id returns the 400
missing-input page and performs no session-store upsert. -/
theorem call_page_missing_user_id (w : CallPageWorld) (h : w.user_id = "") :
    (call_page w).1 = CallPageResult.html 400 "<h2>Missing user_id</h2>"
    ∧ (call_page w).2.upserted = none := by
  simp [call_page, h]

/-- Witness for C8 at the world with defaulted (absent) parameters. -/
theorem call_page_missing_user_id_witness :
    (call_page { user_id := "" }).1 = CallPageResult.html 400 "<h2>Missing user_id</h2>"
    ∧ (call_page { user_id := "" }).2.upserted = none :=
  call_page_missing_user_id { user_id := "" } rfl

/-- Claim C9 (modelled from the spec, the endpoint being absent from src):
the ad-hoc notify endpoint returns the misconfiguration error and makes no
network call when no webhook URL is configured, and otherwise relays the
message verbatim and acknowledges with ok. -/
theorem slack_notify_contract :
    (∀ message, slack_notify "" message = (SlackNotifyResult.misconfiguration 500, none))
    ∧ ∀ webhook_url message, webhook_url ≠ "" →
        slack_notify webhook_url message = (SlackNotifyResult.ok, some message) := by
  constructor
  · intro message; simp [slack_notify]
  · intro webhook_url message h; simp [slack_notify, h]

/-- Witness for C9 at a configured and an unconfigured transport. -/
theorem slack_notify_contract_witness :
    slack_notify "" "hello" = (SlackNotifyResult.misconfiguration 500, none)
    ∧ slack_notify "https://hooks.example" "hello" = (SlackNotifyResult.ok, some "hello") :=
  ⟨slack_notify_contract.1 "hello",
   slack_notify_contract.2 "https://hooks.example" "hello" (by decide)⟩

/-- Claim C1: with a conversation id but no user id in the event and a
successful vendor fetch, the handler resolves a singleton pending-today
filter to that row, and in general to a pending-today row of greatest
created_at (order created_at descending, limit 1), observed through the
user handed to the transcript store. -/
theorem webhook_resolves_most_recent_pending (w : WebhookWorld) (c : String)
    (hcid : extractConversationId w.payload = some c) (hc : c ≠ "")
    (huser : w.payload.user_id = none)
    (henv : ∀ env, w.payload.data = some env → env.user_id = none)
    (hvendor : w.vendorStatus = 200) :
    (∀ r, (w.store.filter fun s => s.date == w.today && s.status == "pending") = [r] →
        (elevenlabs_webhook w).2.storedTranscript
          = some (r.slack_user_id, flattenTranscript w.vendorTranscript))
    ∧ ∀ u t, (elevenlabs_webhook w).2.storedTranscript = some (u, t) →
        ∃ r, r ∈ w.store.filter (fun s => s.date == w.today && s.status == "pending")
          ∧ u = r.slack_user_id
          ∧ ∀ s ∈ w.store.filter (fun s => s.date == w.today && s.status == "pending"),
              s.created_at ≤ r.created_at := by
  constructor
  · intro r hfil
    have hq := pendingQuery_singleton w.store w.today r hfil
    simp [elevenlabs_webhook, hcid, hc, hq, hvendor]
  · intro u t h
    rcases hq : pendingQuery w.store w.today with _ | ⟨r, rest⟩
    · simp [elevenlabs_webhook, hcid, hc, hq] at h
    · have hm := pendingQuery_cons w.store w.today r rest hq
      simp [elevenlabs_webhook, hcid, hc, hq, hvendor] at h
      exact ⟨r, hm.2.1, h.1.symm, hm.2.2⟩

/-- Witness for C1 at the happy-path world with its single pending row. -/
theorem webhook_resolves_most_recent_pending_witness :
    (elevenlabs_webhook wOk).2.storedTranscript
      = some (rowPending.slack_user_id, flattenTranscript wOk.vendorTranscript) :=
  (webhook_resolves_most_recent_pending wOk "conv1" (by decide) (by decide) rfl
      (by intro env h; cases h; rfl) rfl).1 rowPending (by decide)

/-- Claim C3: when the vendor conversation fetch returns a non-success
status, the handler propagates that status as an upstream error and leaves
the session store and chat untouched: no completion PATCH, no Slack DM, no
transcript handoff. -/
theorem webhook_vendor_fail_no_side_effects (w : WebhookWorld) (c : String)
    (hcid : extractConversationId w.payload = some c) (hc : c ≠ "")
    (hpend : pendingQuery w.store w.today ≠ [])
    (hvendor : w.vendorStatus ≠ 200) :
    (elevenlabs_webhook w).1 = WebhookResult.httpError w.vendorStatus fetchFailMsg
    ∧ (elevenlabs_webhook w).2.markedCompleted = none
    ∧ (elevenlabs_webhook w).2.slackDm = none
    ∧ (elevenlabs_webhook w).2.storedTranscript = none := by
  rcases hq : pendingQuery w.store w.today with _ | ⟨r, rest⟩
  · exact absurd hq hpend
  · simp [elevenlabs_webhook, hcid, hc, hq, hvendor]

/-- Witness for C3: a simulated 500 on the vendor fetch. -/
theorem webhook_vendor_fail_no_side_effects_witness :
    (elevenlabs_webhook { wOk with vendorStatus := 500 }).1
        = WebhookResult.httpError 500 fetchFailMsg
    ∧ (elevenlabs_webhook { wOk with vendorStatus := 500 }).2.markedCompleted = none
    ∧ (elevenlabs_webhook { wOk with vendorStatus := 500 }).2.slackDm = none
    ∧ (elevenlabs_webhook { wOk with vendorStatus := 500 }).2.storedTranscript = none :=
  webhook_vendor_fail_no_side_effects { wOk with vendorStatus := 500 } "conv1"
    (by decide) (by decide) (by decide) (by decide)

/-- Claim C4 counterexample: a webhook event that carries a user id
directly, in the envelope and at top level, is still resolved through the
pending-today heuristic: the transcript is attributed to the pending row
user, not to the carried user id. -/
theorem webhook_ignores_direct_user_id :
    wDirect.payload.user_id = some "U_direct"
    ∧ (elevenlabs_webhook wDirect).2.storedTranscript
        = some ("U_pending", flattenTranscript wDirect.vendorTranscript)
    ∧ "U_pending" ≠ "U_direct" :=
  ⟨rfl, by decide, by decide⟩

/-- Claim C4 (amended): the webhook handler ignores any user id carried in
the event — its outcome depends on the payload only through the extracted
conversation id — and whenever it resolves a user, that user comes from a
pending-today row of the session store. -/
theorem webhook_payload_user_id_ignored (w : WebhookWorld) :
    (∀ p' : WebhookPayload,
        extractConversationId p' = extractConversationId w.payload →
        elevenlabs_webhook { w with payload := p' } = elevenlabs_webhook w)
    ∧ ∀ u t, (elevenlabs_webhook w).2.storedTranscript = some (u, t) →
        ∃ r ∈ w.store.filter (fun s => s.date == w.today && s.status == "pending"),
          u = r.slack_user_id := by
  constructor
  · intro p' h
    simp only [elevenlabs_webhook]
    rw [h]
  · intro u t h
    rcases hcid : extractConversationId w.payload with _ | c
    · simp [elevenlabs_webhook, hcid] at h
    · by_cases hc : c = ""
      · simp [elevenlabs_webhook, hcid, hc] at h
      · rcases hq : pendingQuery w.store w.today with _ | ⟨r, rest⟩
        · simp [elevenlabs_webhook, hcid, hc, hq] at h
        · by_cases hv : w.vendorStatus = 200
          · have hm := pendingQuery_cons w.store w.today r rest hq
            simp [elevenlabs_webhook, hcid, hc, hq, hv] at h
            exact ⟨r, hm.2.1, h.1.symm⟩
          · simp [elevenlabs_webhook, hcid, hc, hq, hv] at h

/-- Witness for C4 (amended): stripping the carried user id from the
direct-user world leaves the handler outcome unchanged. -/
theorem webhook_payload_user_id_ignored_witness :
    elevenlabs_webhook { wDirect with payload :=
        { data := some { conversation_id := some "conv4", user_id := none },
          user_id := none } }
      = elevenlabs_webhook wDirect :=
  (webhook_payload_user_id_ignored wDirect).1
    { data := some { conversation_id := some "conv4", user_id := none },
      user_id := none } (by decide)

/-- Claim C5: once a webhook request reaches the notification step (truthy
conversation id, a pending row, vendor success), the handler acknowledges
with ok and the conversation id whatever the Slack responses are; the DM
helper itself is total and surfaces no error. -/
theorem webhook_ack_regardless_of_slack (w : WebhookWorld) (c : String)
    (hcid : extractConversationId w.payload = some c) (hc : c ≠ "")
    (hpend : pendingQuery w.store w.today ≠ [])
    (hvendor : w.vendorStatus = 200) :
    ∀ slack : SlackEnv,
      (elevenlabs_webhook { w with slack := slack }).1 = WebhookResult.ok c := by
  intro slack
  rcases hq : pendingQuery w.store w.today with _ | ⟨r, rest⟩
  · exact absurd hq hpend
  · simp [elevenlabs_webhook, hcid, hc, hq, hvendor]

/-- Witness for C5: the acknowledgment is the same when the DM channel
cannot be opened and when delivery fails. -/
theorem webhook_ack_regardless_of_slack_witness :
    (elevenlabs_webhook { wOk with slack := { openDmChannelId := none } }).1
      = WebhookResult.ok "conv1"
    ∧ (elevenlabs_webhook { wOk with slack :=
        { openDmChannelId := some "D9", postMessageDelivered := false } }).1
      = WebhookResult.ok "conv1" :=
  ⟨webhook_ack_regardless_of_slack wOk "conv1" (by decide) (by decide) (by decide) rfl
      { openDmChannelId := none },
    webhook_ack_regardless_of_slack wOk "conv1" (by decide) (by decide) (by decide) rfl
      { openDmChannelId := some "D9", postMessageDelivered := false }⟩

/-- Claim C10: every session row upserted by the call page carries status
called, a called row never matches the pending filter of the webhook
query, and a webhook arriving when every row for today was created by the
call page fails with the not-found 404. -/
theorem call_page_rows_never_matched :
    (∀ (w : CallPageWorld) u, (call_page w).2.upserted = some u → u.status = "called")
    ∧ (∀ (r : SessionRow) (store : List SessionRow) (today : String),
        r.status = "called" →
        r ∉ store.filter (fun s => s.date == today && s.status == "pending"))
    ∧ ∀ (w : WebhookWorld) (c : String),
        extractConversationId w.payload = some c → c ≠ "" →
        (∀ r ∈ w.store, r.date = w.today → r.status = "called") →
        (elevenlabs_webhook w).1 = WebhookResult.httpError 404 noSessionMsg := by
  refine ⟨?_, ?_, ?_⟩
  · intro w u h
    by_cases hu : w.user_id = ""
    · simp [call_page, hu] at h
    · simp only [call_page, hu] at h
      split_ifs at h <;> (cases h; rfl)
  · intro r store today hst
    simp [List.mem_filter, hst]
  · intro w c hcid hc hall
    have hfil : (w.store.filter fun r => r.date == w.today && r.status == "pending") = [] := by
      rw [List.filter_eq_nil_iff]
      intro r hr habs
      simp only [Bool.and_eq_true, beq_iff_eq] at habs
      have hcalled := hall r hr habs.1
      rw [hcalled] at habs
      simp at habs
    rw [webhook_404_aux w c hcid hc hfil]

/-- Witness for C10: a webhook over a store holding only a called row for
today returns the 404. -/
theorem call_page_rows_never_matched_witness :
    (elevenlabs_webhook { wOk with store :=
        [{ slack_user_id := "U1", date := "2026-10-12",
           status := "called", created_at := 7 }] }).1
      = WebhookResult.httpError 404 noSessionMsg :=
  call_page_rows_never_matched.2.2
    { wOk with store :=
        [{ slack_user_id := "U1", date := "2026-10-12",
           status := "called", created_at := 7 }] }
    "conv1" (by decide) (by decide) (by decide)

end ElevenLabsService
